import Mathlib

/-
Verification of the error-history tracking and threshold-alerting subsystem of
the Electric_Load_Forecasting repository, against its natural-language
specification.

Embedded source files:
  * src/utils/error_history.py   (ErrorHistoryTracker, get_tracker)
  * src/Models/scheduler.py      (evaluate_forecast_and_notify)
  * src/utils/telegram_notifier.py (TelegramNotifier)

Modelling conventions:
  * Python float values reachable in this subsystem are finite reals or +inf
    (the code never produces nan or -inf on its error paths); they are
    modelled by `PyFloat`: a rational or the infinity marker.  Comparisons,
    sum, min, max and division by a positive count agree with IEEE semantics
    on these values.
  * Python dicts are modelled as association lists with first-match lookup
    (`dget`) and replace-or-append assignment (`dinsert`), which is exactly
    the observable behaviour of insertion-ordered Python dicts.
  * Date strings (YYYY-MM-DD) are compared with `pyStrLe`, lexicographic
    comparison of code points, exactly as Python compares `str` values in
    `date >= cutoff_date`.
  * Calls to `datetime.now()` are modelled by explicit parameters: `ts` for
    `datetime.now().isoformat()`, `forecast_date` for the current date, and
    `cutoff` for `(datetime.now() - timedelta(days=max_days)).strftime('%Y-%m-%d')`
    (respectively `days` for query windows).  "older than the window" is by
    construction "date string < cutoff".
  * File I/O in `_save_history` is modelled by a boolean parameter `save_ok`
    giving the outcome of the attempted write: the source catches every
    exception and returns False, so the method's value is exactly that
    boolean, and no exception escapes.
-/

/-- Python float values reachable in the subsystem: finite values (as exact
rationals) or +infinity, produced by `float('inf')` in the scheduler. -/
inductive PyFloat where
  | fin (q : ℚ)
  | inf
deriving DecidableEq

/-- Python `<` on the reachable float values (`+inf` is greater than every
finite value and not less than itself). -/
def PyFloat.lt : PyFloat → PyFloat → Bool
  | .fin x, .fin y => decide (x < y)
  | .fin _, .inf => true
  | .inf, _ => false

/-- Python `min(a, b)`: returns the first argument on ties. -/
def PyFloat.min2 (a b : PyFloat) : PyFloat := if PyFloat.lt b a then b else a

/-- Python `max(a, b)`: returns the first argument on ties. -/
def PyFloat.max2 (a b : PyFloat) : PyFloat := if PyFloat.lt a b then b else a

/-- Python `+` on the reachable float values (no -inf is ever present, so
inf absorbs). -/
def PyFloat.add : PyFloat → PyFloat → PyFloat
  | .fin x, .fin y => .fin (x + y)
  | _, _ => .inf

/-- Python `/` by a positive integer count (used only with `len(...) > 0`). -/
def PyFloat.divNat (a : PyFloat) (n : ℕ) : PyFloat :=
  match a with
  | .fin x => .fin (x / (n : ℚ))
  | .inf => .inf

/-- Values stored in an error-history entry dict: numbers or strings. -/
inductive PyVal where
  | num (x : PyFloat)
  | strv (s : String)
deriving DecidableEq

/-- Python string `<`, lexicographic on code points (on `String.data`). -/
def charListLt : List Char → List Char → Bool
  | [], [] => false
  | [], _ :: _ => true
  | _ :: _, [] => false
  | c :: cs, d :: ds =>
    if c.toNat < d.toNat then true
    else if d.toNat < c.toNat then false
    else charListLt cs ds

/-- Python string `<=`; the source's `date >= cutoff_date` is
`pyStrLe cutoff_date date`. -/
def pyStrLe (a b : String) : Bool := !(charListLt b.data a.data)

/-- Python dict lookup `d[k]` / `d.get(k)`: first (unique) matching key. -/
def dget {α : Type} (k : String) : List (String × α) → Option α
  | [] => none
  | (k', v) :: rest => if k' = k then some v else dget k rest

/-- Python dict assignment `d[k] = v`: replaces the value in place when the
key is present, appends `(k, v)` otherwise (insertion order preserved). -/
def dinsert {α : Type} (k : String) (v : α) : List (String × α) → List (String × α)
  | [] => [(k, v)]
  | (k', v') :: rest => if k' = k then (k, v) :: rest else (k', v') :: dinsert k v rest

/-- Python `d.update(m)`: assigns every pair of `m` into `d`, in order. -/
def dupdate {α : Type} (d : List (String × α)) (m : List (String × α)) : List (String × α) :=
  m.foldl (fun acc p => dinsert p.1 p.2 acc) d

/-- One error observation: the dict built by `ErrorHistoryTracker.add_error`
(`{'error': ..., 'timestamp': ...}` updated with the caller's metrics). -/
abbrev Entry : Type := List (String × PyVal)

/-- Per-model history: the dict mapping forecast date to observation. -/
abbrev ModelHistory : Type := List (String × Entry)

/-- The whole in-memory history `self.history`: model name → date → entry. -/
abbrev History : Type := List (String × ModelHistory)

/-- Entry construction in `add_error` (src/utils/error_history.py lines
109-117): the base dict `{'error': float(error_value), 'timestamp': now}` is
`update`d with `additional_metrics` when a non-empty dict is supplied
(updating with an empty dict is the identity, so the truthiness guard in the
source needs no separate branch). -/
def mkEntry (error_value : PyFloat) (ts : String) (additional_metrics : List (String × PyVal)) : Entry :=
  dupdate [("error", PyVal.num error_value), ("timestamp", PyVal.strv ts)] additional_metrics

/-- The body of `ErrorHistoryTracker._prune_old_entries` (lines 128-139):
every model's dict is rebuilt keeping only dates `>= cutoff_date`. -/
def prune_old_entries (h : History) (cutoff : String) : History :=
  h.map (fun p => (p.1, p.2.filter (fun q => pyStrLe cutoff q.1)))

/-- The body of `ErrorHistoryTracker.add_error` (lines 88-126): initialise the
model's dict if absent, write the entry under `forecast_date`, prune, then
return the result of `_save_history` (modelled by `save_ok`; the source
catches every exception there and returns False, so nothing is raised and the
in-memory history keeps the mutation whatever the outcome). -/
def add_error (h : History) (model_name : String) (error_value : PyFloat)
    (ts forecast_date : String) (additional_metrics : List (String × PyVal))
    (cutoff : String) (save_ok : Bool) : History × Bool :=
  let h1 := if dget model_name h = none then dinsert model_name [] h else h
  let entry := mkEntry error_value ts additional_metrics
  let h2 := dinsert model_name (dinsert forecast_date entry ((dget model_name h1).getD [])) h1
  (prune_old_entries h2 cutoff, save_ok)

/-- The body of `ErrorHistoryTracker.get_model_history` (lines 141-151):
`self.history.get(model_name, {})`. -/
def get_model_history (h : History) (model_name : String) : ModelHistory :=
  (dget model_name h).getD []

/-- Extraction `entry['error']` as used by `get_recent_errors`; every entry
written by `add_error` carries the key, so the default is unreachable there
(in the source a missing key would raise KeyError). -/
def entryErrorVal (e : Entry) : PyVal :=
  (dget "error" e).getD (PyVal.num (PyFloat.fin 0))

/-- Stable insertion into a date-sorted list, implementing Python's
`sorted(..., key=lambda x: x[0])` for the duplicate-free keys a dict yields. -/
def insertByDate (x : String × PyVal) : List (String × PyVal) → List (String × PyVal)
  | [] => [x]
  | y :: ys => if pyStrLe y.1 x.1 then y :: insertByDate x ys else x :: y :: ys

/-- Python `sorted` by first component (stable; agrees with the source's sort
on the duplicate-free date keys produced by a dict). -/
def sortByDate (l : List (String × PyVal)) : List (String × PyVal) :=
  l.foldr insertByDate []

/-- The body of `ErrorHistoryTracker.get_recent_errors` (lines 153-180):
empty list for an unknown/empty model, otherwise the `(date, entry['error'])`
pairs with `date >= cutoff_date`, sorted by date. -/
def get_recent_errors (h : History) (model_name : String) (cutoff : String) :
    List (String × PyVal) :=
  let model_history := get_model_history h model_name
  if model_history = [] then []
  else sortByDate (model_history.filterMap
    (fun p => if pyStrLe cutoff p.1 then some (p.1, entryErrorVal p.2) else none))

/-- Python `min(list)` on a non-empty list (None is never produced by the
source since the empty case is handled before the call). -/
def pyListMin : List PyFloat → Option PyFloat
  | [] => none
  | x :: xs => some (xs.foldl PyFloat.min2 x)

/-- Python `max(list)` on a non-empty list. -/
def pyListMax : List PyFloat → Option PyFloat
  | [] => none
  | x :: xs => some (xs.foldl PyFloat.max2 x)

/-- Python `sum(list)`, starting from 0. -/
def pySum (l : List PyFloat) : PyFloat := l.foldl PyFloat.add (PyFloat.fin 0)

/-- Result dict of `get_error_statistics`. -/
structure ErrorStats where
  count : ℕ
  min : Option PyFloat
  max : Option PyFloat
  avg : Option PyFloat
  above_threshold_count : ℕ
deriving DecidableEq

/-- Numeric reading of a stored error value; a non-numeric value here would
raise TypeError in the source's min/max/sum and is unreachable for histories
built by `add_error` without caller interference on the `error` key. -/
def pyValNum : PyVal → PyFloat
  | PyVal.num x => x
  | PyVal.strv _ => PyFloat.fin 0

/-- The body of `ErrorHistoryTracker.get_error_statistics` (lines 182-210):
statistics over the error values of `get_recent_errors`; all-None fields and
zero counts when there are no recent errors, otherwise count, min, max,
mean, and the number of errors strictly above 5.0. -/
def get_error_statistics (h : History) (model_name : String) (cutoff : String) : ErrorStats :=
  let recent_errors := (get_recent_errors h model_name cutoff).map
    (fun p => pyValNum p.2)
  if recent_errors = [] then
    { count := 0, min := none, max := none, avg := none, above_threshold_count := 0 }
  else
    { count := recent_errors.length
      min := pyListMin recent_errors
      max := pyListMax recent_errors
      avg := some ((pySum recent_errors).divNat recent_errors.length)
      above_threshold_count := (recent_errors.filter (fun e => PyFloat.lt (PyFloat.fin 5) e)).length }

/-- Error computation of `evaluate_forecast_and_notify`
(src/Models/scheduler.py lines 36-39): saturating absolute percentage error,
`abs((actual - predicted) / actual) * 100` guarded by the zero-actual branch. -/
def error_pct (actual_value predicted_value : ℚ) : PyFloat :=
  if actual_value = 0 then
    (if predicted_value ≠ 0 then PyFloat.inf else PyFloat.fin 0)
  else
    PyFloat.fin (|(actual_value - predicted_value) / actual_value| * 100)

/-- Alert-tier decision of `evaluate_forecast_and_notify` (lines 84-95):
no alert unless `error_pct > 5.0`; `"critical"` when `error_pct > 10.0`,
`"error"` otherwise. -/
def alertLevel (e : PyFloat) : Option String :=
  if PyFloat.lt (PyFloat.fin 5) e then
    (if PyFloat.lt (PyFloat.fin 10) e then some "critical" else some "error")
  else none

/-- Observable outcome of one `evaluate_forecast_and_notify` call: the
returned error percentage, the tracker history after the recording step, and
the alert tier chosen (None when no alert is attempted). -/
structure EvalResult where
  error_pct : PyFloat
  history : History
  alert : Option String
deriving DecidableEq

/-- The body of `evaluate_forecast_and_notify` (lines 22-115): compute the
saturating error, record it through the tracker with the contextual metrics
`actual`/`predicted`/`abs_error`, and decide the alert tier.  Message
composition and delivery are outside this claim set; the try/except around
the recording step only guards tracker construction, and `add_error` itself
never raises. -/
def evaluate_forecast_and_notify (h : History) (actual_value predicted_value : ℚ)
    (model_name : String) (ts forecast_date cutoff : String) (save_ok : Bool) : EvalResult :=
  let e := error_pct actual_value predicted_value
  let additional_metrics :=
    [("actual", PyVal.num (PyFloat.fin actual_value)),
     ("predicted", PyVal.num (PyFloat.fin predicted_value)),
     ("abs_error", PyVal.num (PyFloat.fin |actual_value - predicted_value|))]
  let h2 := (add_error h model_name e ts forecast_date additional_metrics cutoff save_ok).1
  { error_pct := e, history := h2, alert := alertLevel e }

/-- One recorded `add_error` invocation, with the ambient-time parameters. -/
structure AddCall where
  model_name : String
  error_value : PyFloat
  ts : String
  forecast_date : String
  additional_metrics : List (String × PyVal)
  cutoff : String
  save_ok : Bool

/-- Sequential application of `add_error` calls to a history. -/
def apply_add_calls (h : History) : List AddCall → History
  | [] => h
  | c :: cs =>
    apply_add_calls
      (add_error h c.model_name c.error_value c.ts c.forecast_date
        c.additional_metrics c.cutoff c.save_ok).1 cs

/-- Well-formedness every Python dict enjoys and the association-list model
must maintain: duplicate-free model keys, and duplicate-free date keys inside
every model's dict. -/
def HistWF (h : History) : Prop :=
  (h.map Prod.fst).Nodup ∧ ∀ p ∈ h, ((p.2 : ModelHistory).map Prod.fst).Nodup

/-- Number of observations stored for one (model, date) key. -/
def obs_count (h : History) (m d : String) : ℕ :=
  ((get_model_history h m).filter (fun p => p.1 = d)).length

/-- State of the `TelegramNotifier` instance after construction
(src/utils/telegram_notifier.py lines 26-52): the class has exactly these
three data attributes besides the logger; in particular it holds no queue of
any kind. -/
structure TelegramNotifier where
  token : String
  chat_id : String
  timezone : String
deriving DecidableEq

/-- Outcome of the HTTP POST inside `_send_message` (lines 149-168): success,
a `requests` exception, or any other exception. -/
inductive SendOutcome where
  | ok
  | requestError
  | otherError
deriving DecidableEq

/-- The value of `TelegramNotifier._send_message` (lines 131-168): True on a
successful POST, False on either exception branch; no attribute of the
instance is touched. -/
def send_message_result : SendOutcome → Bool
  | SendOutcome.ok => true
  | SendOutcome.requestError => false
  | SendOutcome.otherError => false

/-- The observable effect of `TelegramNotifier.send_alert` (lines 73-112):
it formats the message and returns `_send_message`'s boolean; the instance
state is unchanged and nothing is stored anywhere on failure. -/
def send_alert (n : TelegramNotifier) (outcome : SendOutcome) : TelegramNotifier × Bool :=
  (n, send_message_result outcome)

/-- The methods defined on the `TelegramNotifier` class
(src/utils/telegram_notifier.py): these five and no others. -/
def telegramNotifierMethods : List String :=
  ["__init__", "_validate_and_fix_token", "send_alert", "test_connection", "_send_message"]

/-- Method names invoked on the notifier instance by the repository's own
test driver `src/test_telegram.py` (lines 44, 55, 68). -/
def testTelegramInvokedMethods : List String :=
  ["test_connection", "send_alert", "process_queue"]

/-- Default storage path of `ErrorHistoryTracker.__init__` (lines 40-44):
`<package>/data/error_history.json`, modelled by its relative path. -/
def default_history_file : String := "data/error_history.json"

/-- State of an `ErrorHistoryTracker` (lines 31-49): storage path, retention
window, and the in-memory history. -/
structure ErrorHistoryTracker where
  history_file : String
  max_days : ℤ
  history : History
deriving DecidableEq

/-- The body of `ErrorHistoryTracker.__init__` (lines 31-49): the default
path when none is supplied, and the history loaded from storage (`loaded`
models the result of `_load_history`, empty on missing or corrupt storage). -/
def tracker_init (history_file : Option String) (max_days : ℤ) (loaded : History) :
    ErrorHistoryTracker :=
  { history_file := history_file.getD default_history_file
    max_days := max_days
    history := loaded }

/-- The body of `get_tracker` (src/utils/error_history.py lines 216-232) over
an explicit module-global cell `g` (`_tracker`): construct on the first call,
afterwards return the cached instance unconditionally. -/
def get_tracker (g : Option ErrorHistoryTracker) (history_file : Option String)
    (max_days : ℤ) (loaded : History) : ErrorHistoryTracker × Option ErrorHistoryTracker :=
  match g with
  | some t => (t, some t)
  | none =>
    let t := tracker_init history_file max_days loaded
    (t, some t)


/-- Unfolding equation: assignment into the empty dict. -/
theorem dinsert_nil {α : Type} (k : String) (v : α) : dinsert k v [] = [(k, v)] := rfl

/-- Unfolding equation: assignment hitting the head key. -/
theorem dinsert_cons_self {α : Type} (k : String) (v v' : α) (rest : List (String × α)) :
    dinsert k v ((k, v') :: rest) = (k, v) :: rest := by
  simp [dinsert]

/-- Unfolding equation: assignment passing over a different head key. -/
theorem dinsert_cons_ne {α : Type} {k₀ k : String} (h : k₀ ≠ k) (v v₀ : α)
    (rest : List (String × α)) :
    dinsert k v ((k₀, v₀) :: rest) = (k₀, v₀) :: dinsert k v rest := by
  simp [dinsert, h]

/-- Unfolding equation: lookup at the head key. -/
theorem dget_cons_self {α : Type} (k : String) (v : α) (rest : List (String × α)) :
    dget k ((k, v) :: rest) = some v := by
  simp [dget]

/-- Unfolding equation: lookup passing over a different head key. -/
theorem dget_cons_ne {α : Type} {k₀ k : String} (h : k₀ ≠ k) (v₀ : α)
    (rest : List (String × α)) :
    dget k ((k₀, v₀) :: rest) = dget k rest := by
  simp [dget, h]

/-- Looking up the key just assigned yields the assigned value. -/
theorem dget_dinsert_self {α : Type} (k : String) (v : α) (l : List (String × α)) :
    dget k (dinsert k v l) = some v := by
  induction l with
  | nil => rw [dinsert_nil, dget_cons_self]
  | cons p rest ih =>
    obtain ⟨k₀, v₀⟩ := p
    by_cases hp : k₀ = k
    · subst hp
      rw [dinsert_cons_self, dget_cons_self]
    · rw [dinsert_cons_ne hp, dget_cons_ne hp, ih]

/-- Assignment under one key leaves lookups of other keys unchanged. -/
theorem dget_dinsert_ne {α : Type} {k' k : String} (hne : k' ≠ k) (v : α)
    (l : List (String × α)) : dget k' (dinsert k v l) = dget k' l := by
  have hne' : k ≠ k' := Ne.symm hne
  induction l with
  | nil => simp [dinsert, dget, hne']
  | cons p rest ih =>
    obtain ⟨k₀, v₀⟩ := p
    by_cases hp : k₀ = k
    · subst hp
      rw [dinsert_cons_self, dget_cons_ne hne', dget_cons_ne hne']
    · rw [dinsert_cons_ne hp]
      by_cases hq : k₀ = k'
      · subst hq
        rw [dget_cons_self, dget_cons_self]
      · rw [dget_cons_ne hq, dget_cons_ne hq, ih]

/-- Every pair of an assigned dict is the assigned pair or an original one. -/
theorem mem_dinsert {α : Type} {p : String × α} {k : String} {v : α}
    {l : List (String × α)} (hp : p ∈ dinsert k v l) : p = (k, v) ∨ p ∈ l := by
  induction l with
  | nil =>
    rw [dinsert_nil] at hp
    exact Or.inl (List.mem_singleton.1 hp)
  | cons q rest ih =>
    obtain ⟨k₀, v₀⟩ := q
    by_cases hq : k₀ = k
    · subst hq
      rw [dinsert_cons_self] at hp
      rcases List.mem_cons.1 hp with h | h
      · exact Or.inl h
      · exact Or.inr (List.mem_cons_of_mem _ h)
    · rw [dinsert_cons_ne hq] at hp
      rcases List.mem_cons.1 hp with h | h
      · exact Or.inr (List.mem_cons.2 (Or.inl h))
      · rcases ih h with h' | h'
        · exact Or.inl h'
        · exact Or.inr (List.mem_cons_of_mem _ h')

/-- Keys after an assignment are the assigned key and the original keys. -/
theorem mem_keys_dinsert {α : Type} (k' k : String) (v : α) (l : List (String × α)) :
    k' ∈ (dinsert k v l).map Prod.fst ↔ k' = k ∨ k' ∈ l.map Prod.fst := by
  induction l with
  | nil => simp [dinsert_nil]
  | cons p rest ih =>
    obtain ⟨k₀, v₀⟩ := p
    by_cases hp : k₀ = k
    · subst hp
      rw [dinsert_cons_self]
      simp only [List.map_cons, List.mem_cons]
      tauto
    · rw [dinsert_cons_ne hp]
      simp only [List.map_cons, List.mem_cons, ih]
      tauto

/-- Assignment preserves duplicate-freeness of the key list. -/
theorem nodup_keys_dinsert {α : Type} {k : String} (v : α) {l : List (String × α)}
    (hl : (l.map Prod.fst).Nodup) : ((dinsert k v l).map Prod.fst).Nodup := by
  induction l with
  | nil => simp [dinsert_nil]
  | cons p rest ih =>
    obtain ⟨k₀, v₀⟩ := p
    simp only [List.map_cons, List.nodup_cons] at hl
    by_cases hp : k₀ = k
    · subst hp
      rw [dinsert_cons_self]
      simp only [List.map_cons, List.nodup_cons]
      exact hl
    · rw [dinsert_cons_ne hp]
      simp only [List.map_cons, List.nodup_cons]
      refine ⟨fun hmem => ?_, ih hl.2⟩
      rcases (mem_keys_dinsert k₀ k v rest).1 hmem with h | h
      · exact hp h
      · exact hl.1 h

/-- Lookup fails exactly on the keys absent from the dict. -/
theorem dget_eq_none_iff {α : Type} (k : String) (l : List (String × α)) :
    dget k l = none ↔ k ∉ l.map Prod.fst := by
  induction l with
  | nil => simp [dget]
  | cons p rest ih =>
    obtain ⟨k₀, v₀⟩ := p
    by_cases hp : k₀ = k
    · subst hp
      rw [dget_cons_self]
      simp
    · rw [dget_cons_ne hp]
      simp only [List.map_cons, List.mem_cons, ih]
      have : ¬ k = k₀ := Ne.symm hp
      tauto

/-- A successful lookup exhibits a member of the dict. -/
theorem dget_mem {α : Type} {k : String} {v : α} {l : List (String × α)}
    (h : dget k l = some v) : (k, v) ∈ l := by
  induction l with
  | nil => simp [dget] at h
  | cons p rest ih =>
    obtain ⟨k₀, v₀⟩ := p
    by_cases hp : k₀ = k
    · subst hp
      rw [dget_cons_self] at h
      rw [Option.some.injEq] at h
      subst h
      exact List.mem_cons_self _ _
    · rw [dget_cons_ne hp] at h
      exact List.mem_cons_of_mem _ (ih h)

/-- Filtering by a date bound the key satisfies does not change the lookup. -/
theorem dget_filter_ge {α : Type} {c d : String} (hcd : pyStrLe c d = true)
    (l : List (String × α)) :
    dget d (l.filter (fun p => pyStrLe c p.1)) = dget d l := by
  induction l with
  | nil => simp
  | cons p rest ih =>
    obtain ⟨k₀, v₀⟩ := p
    by_cases hp : k₀ = d
    · subst hp
      rw [List.filter_cons_of_pos (by simpa using hcd), dget_cons_self, dget_cons_self]
    · by_cases hk : pyStrLe c k₀
      · rw [List.filter_cons_of_pos (by simpa using hk), dget_cons_ne hp, dget_cons_ne hp, ih]
      · rw [List.filter_cons_of_neg (by simpa using hk), dget_cons_ne hp, ih]

/-- Lookup commutes with a value-only transformation of the dict. -/
theorem dget_map_snd {α β : Type} (f : α → β) (k : String) (l : List (String × α)) :
    dget k (l.map (fun p => (p.1, f p.2))) = (dget k l).map f := by
  induction l with
  | nil => simp [dget]
  | cons p rest ih =>
    obtain ⟨k₀, v₀⟩ := p
    by_cases hp : k₀ = k
    · subst hp
      rw [List.map_cons]
      rw [dget_cons_self (α := β), dget_cons_self]
      rfl
    · rw [List.map_cons]
      rw [dget_cons_ne (α := β) hp, dget_cons_ne hp, ih]

/-- A value-only transformation leaves the key list unchanged. -/
theorem keys_map_snd {α β : Type} (f : α → β) (l : List (String × α)) :
    (l.map (fun p => (p.1, f p.2))).map Prod.fst = l.map Prod.fst := by
  induction l with
  | nil => simp
  | cons p rest ih => simp [ih]

/-- Filtering preserves duplicate-freeness of the key list. -/
theorem nodup_keys_filter {α : Type} (P : String × α → Bool) {l : List (String × α)}
    (hl : (l.map Prod.fst).Nodup) : ((l.filter P).map Prod.fst).Nodup :=
  hl.sublist (List.Sublist.map Prod.fst (List.filter_sublist l))

/-- With duplicate-free keys, at most one pair carries any given key. -/
theorem length_filter_key_le_one {α : Type} (d : String) {l : List (String × α)}
    (hl : (l.map Prod.fst).Nodup) :
    (l.filter (fun p => p.1 = d)).length ≤ 1 := by
  induction l with
  | nil => simp
  | cons p rest ih =>
    obtain ⟨k₀, v₀⟩ := p
    simp only [List.map_cons, List.nodup_cons] at hl
    by_cases hp : k₀ = d
    · subst hp
      have hrest : rest.filter (fun p => decide (p.1 = k₀)) = [] := by
        refine List.filter_eq_nil_iff.2 (fun q hq => ?_)
        simp only [decide_eq_true_eq]
        intro hq1
        exact hl.1 (hq1 ▸ List.mem_map_of_mem Prod.fst hq)
      simp [List.filter_cons, hrest]
    · simpa [List.filter_cons, hp] using ih hl.2

/-- Updating with pairs that avoid a key leaves that key's lookup unchanged. -/
theorem dget_dupdate_none {α : Type} {k : String} {m : List (String × α)}
    (hm : dget k m = none) (d : List (String × α)) :
    dget k (dupdate d m) = dget k d := by
  induction m generalizing d with
  | nil => simp [dupdate]
  | cons p rest ih =>
    obtain ⟨k₀, v₀⟩ := p
    by_cases hp : k₀ = k
    · subst hp
      rw [dget_cons_self] at hm
      exact absurd hm (by simp)
    · rw [dget_cons_ne hp] at hm
      calc dget k (dupdate d ((k₀, v₀) :: rest))
          = dget k (dupdate (dinsert k₀ v₀ d) rest) := rfl
        _ = dget k (dinsert k₀ v₀ d) := ih hm _
        _ = dget k d := dget_dinsert_ne (Ne.symm hp) v₀ d

/-- Updating with a duplicate-free dict that carries a key stores that dict's
value under the key. -/
theorem dget_dupdate_some {α : Type} {k : String} {v : α} {m : List (String × α)}
    (hnd : (m.map Prod.fst).Nodup) (hm : dget k m = some v) (d : List (String × α)) :
    dget k (dupdate d m) = some v := by
  induction m generalizing d with
  | nil => simp [dget] at hm
  | cons p rest ih =>
    obtain ⟨k₀, v₀⟩ := p
    simp only [List.map_cons, List.nodup_cons] at hnd
    by_cases hp : k₀ = k
    · subst hp
      rw [dget_cons_self, Option.some.injEq] at hm
      rw [← hm]
      have hrest : dget k₀ rest = none := (dget_eq_none_iff k₀ rest).2 hnd.1
      calc dget k₀ (dupdate d ((k₀, v₀) :: rest))
          = dget k₀ (dupdate (dinsert k₀ v₀ d) rest) := rfl
        _ = dget k₀ (dinsert k₀ v₀ d) := dget_dupdate_none hrest _
        _ = some v₀ := dget_dinsert_self k₀ v₀ d
    · rw [dget_cons_ne hp] at hm
      calc dget k (dupdate d ((k₀, v₀) :: rest))
          = dget k (dupdate (dinsert k₀ v₀ d) rest) := rfl
        _ = some v := ih hnd.2 hm _

/-- Central storage lemma for `add_error`: when the written date is inside the
retention window, the entry looked up afterwards under (model, date) is
exactly the freshly built one — whatever was stored there before. -/
theorem add_error_stores_entry (h : History) (m : String) (e : PyFloat) (ts d : String)
    (mets : List (String × PyVal)) (cutoff : String) (s : Bool)
    (hc : pyStrLe cutoff d = true) :
    dget d (get_model_history (add_error h m e ts d mets cutoff s).1 m)
      = some (mkEntry e ts mets) := by
  simp only [add_error, get_model_history, prune_old_entries]
  rw [dget_map_snd, dget_dinsert_self]
  simp only [Option.map_some', Option.getD_some]
  rw [dget_filter_ge hc, dget_dinsert_self]

/-- The `_save_history` outcome is returned unchanged by `add_error`. -/
theorem add_error_returns_save (h : History) (m : String) (e : PyFloat) (ts d : String)
    (mets : List (String × PyVal)) (cutoff : String) (s : Bool) :
    (add_error h m e ts d mets cutoff s).2 = s := rfl

/-- One `add_error` call preserves dict well-formedness of the history. -/
theorem add_error_wf (h : History) (m : String) (e : PyFloat) (ts d : String)
    (mets : List (String × PyVal)) (cutoff : String) (s : Bool) (hw : HistWF h) :
    HistWF (add_error h m e ts d mets cutoff s).1 := by
  obtain ⟨htop, hin⟩ := hw
  have hw1 : HistWF (if dget m h = none then dinsert m [] h else h) := by
    by_cases hnone : dget m h = none
    · rw [if_pos hnone]
      refine ⟨nodup_keys_dinsert _ htop, ?_⟩
      intro p hp
      rcases mem_dinsert hp with rfl | hp'
      · simp
      · exact hin p hp'
    · rw [if_neg hnone]
      exact ⟨htop, hin⟩
  simp only [add_error, prune_old_entries]
  set h1 := if dget m h = none then dinsert m [] h else h with hh1
  have hmh1 : (((dget m h1).getD ([] : ModelHistory)).map Prod.fst).Nodup := by
    cases hd : dget m h1 with
    | none => simp
    | some l =>
      simpa using hw1.2 (m, l) (dget_mem hd)
  have hw2 : HistWF (dinsert m (dinsert d (mkEntry e ts mets) ((dget m h1).getD [])) h1) := by
    refine ⟨nodup_keys_dinsert _ hw1.1, ?_⟩
    intro p hp
    rcases mem_dinsert hp with rfl | hp'
    · simpa using nodup_keys_dinsert (mkEntry e ts mets) hmh1
    · exact hw1.2 p hp'
  refine ⟨?_, ?_⟩
  · rw [keys_map_snd]
    exact hw2.1
  · intro p hp
    rcases List.mem_map.1 hp with ⟨q, hq, rfl⟩
    exact nodup_keys_filter _ (hw2.2 q hq)

/-- Dict well-formedness is preserved by any sequence of `add_error` calls. -/
theorem apply_add_calls_wf (calls : List AddCall) (h : History) (hw : HistWF h) :
    HistWF (apply_add_calls h calls) := by
  induction calls generalizing h with
  | nil => exact hw
  | cons c cs ih =>
    exact ih _ (add_error_wf h c.model_name c.error_value c.ts c.forecast_date
      c.additional_metrics c.cutoff c.save_ok hw)

/-- Dict well-formedness bounds the observation count of every key by one. -/
theorem obs_count_le_one (h : History) (hw : HistWF h) (m d : String) :
    obs_count h m d ≤ 1 := by
  unfold obs_count get_model_history
  cases hd : dget m h with
  | none => simp
  | some l =>
    simp only [Option.getD_some]
    exact length_filter_key_le_one d (by simpa using hw.2 (m, l) (dget_mem hd))

/-- Exceeding the critical bound implies exceeding the alert bound. -/
theorem pyfloat_lt_five_of_lt_ten {e : PyFloat}
    (h : PyFloat.lt (PyFloat.fin 10) e = true) :
    PyFloat.lt (PyFloat.fin 5) e = true := by
  cases e with
  | fin q =>
    simp only [PyFloat.lt, decide_eq_true_eq] at h ⊢
    linarith
  | inf => rfl

/-- The empty history is a well-formed dict of dicts. -/
theorem hist_wf_nil : HistWF ([] : History) :=
  ⟨List.nodup_nil, fun p hp => absurd hp (List.not_mem_nil p)⟩

/-- Membership in a model's history after pruning forces the date to sit at
or after the cutoff. -/
theorem mem_get_model_history_prune {h : History} {cutoff m' date : String} {entry : Entry}
    (hmem : (date, entry) ∈ get_model_history (prune_old_entries h cutoff) m') :
    pyStrLe cutoff date = true := by
  unfold get_model_history prune_old_entries at hmem
  rw [dget_map_snd] at hmem
  cases hd : dget m' h with
  | none =>
    rw [hd] at hmem
    simp at hmem
  | some l =>
    rw [hd] at hmem
    simp only [Option.map_some', Option.getD_some] at hmem
    simpa using (List.mem_filter.1 hmem).2

/-- C3: for every predicted value, the error computation of
`evaluate_forecast_and_notify` with `actual == 0` is total (no division is
attempted, so nothing can raise) and yields 0 when `predicted == 0` and
+infinity otherwise. -/
theorem evaluate_zero_actual_saturates (predicted_value : ℚ) :
    error_pct 0 predicted_value
      = (if predicted_value = 0 then PyFloat.fin 0 else PyFloat.inf) := by
  by_cases hp : predicted_value = 0 <;> simp [error_pct, hp]

/-- Formula stated by the spec sentence for C4, word for word: the absolute
difference divided by `actual` itself (not by its absolute value). -/
def error_pct_claimed (actual_value predicted_value : ℚ) : PyFloat :=
  PyFloat.fin (|actual_value - predicted_value| / actual_value * 100)

/-- C4 counterexample: at `actual = -1, predicted = 0` the code computes
+100 (absolute percentage error) while the claimed formula
`|actual - predicted| / actual * 100` gives -100, so the claim as stated
fails on the code. -/
theorem error_pct_formula_counterexample :
    error_pct (-1) 0 = PyFloat.fin 100 ∧
    error_pct_claimed (-1) 0 = PyFloat.fin (-100) ∧
    PyFloat.fin (100 : ℚ) ≠ PyFloat.fin (-100 : ℚ) := by
  refine ⟨?_, ?_, ?_⟩
  · simp only [error_pct]
    norm_num
  · simp only [error_pct_claimed]
    norm_num
  · simp only [ne_eq, PyFloat.fin.injEq]
    norm_num

/-- C4 amended: for every `actual ≠ 0` the code returns
`|actual - predicted| / |actual| * 100` (the claimed formula with the
denominator taken in absolute value, which coincides with it whenever
`actual > 0`), and the result is invariant under swapping the sign of
`actual - predicted`. -/
theorem error_pct_absolute_ratio (actual_value predicted_value : ℚ)
    (ha : actual_value ≠ 0) :
    error_pct actual_value predicted_value
        = PyFloat.fin (|actual_value - predicted_value| / |actual_value| * 100) ∧
    error_pct actual_value (2 * actual_value - predicted_value)
        = error_pct actual_value predicted_value := by
  constructor
  · simp [error_pct, ha, abs_div]
  · simp only [error_pct, if_neg ha]
    congr 1
    have hswap : actual_value - (2 * actual_value - predicted_value)
        = -(actual_value - predicted_value) := by ring
    rw [hswap, neg_div, abs_neg]

/-- Witness for C4's amended theorem at `actual = 4, predicted = 5`. -/
theorem error_pct_absolute_ratio_witness :
    (4 : ℚ) ≠ 0 ∧
    (error_pct 4 5 = PyFloat.fin (|(4 : ℚ) - 5| / |(4 : ℚ)| * 100) ∧
     error_pct 4 (2 * 4 - 5) = error_pct 4 5) :=
  ⟨by norm_num, error_pct_absolute_ratio 4 5 (by norm_num)⟩

/-- C10: once the module global holds a tracker, every later `get_tracker`
call returns that very tracker and caches it again unchanged; the
`history_file` and `max_days` arguments of later calls are ignored, and the
tracker keeps the storage path and retention window of the first call. -/
theorem get_tracker_singleton (t : ErrorHistoryTracker) (history_file : Option String)
    (max_days : ℤ) (loaded : History) (hf₁ : Option String) (md₁ : ℤ) (ld₁ : History) :
    get_tracker (some t) history_file max_days loaded = (t, some t) ∧
    (get_tracker (get_tracker none hf₁ md₁ ld₁).2 history_file max_days loaded).1
      = tracker_init hf₁ md₁ ld₁ ∧
    ((get_tracker (get_tracker none hf₁ md₁ ld₁).2 history_file max_days loaded).1).history_file
      = hf₁.getD default_history_file ∧
    ((get_tracker (get_tracker none hf₁ md₁ ld₁).2 history_file max_days loaded).1).max_days
      = md₁ :=
  ⟨rfl, rfl, rfl, rfl⟩

/-- C1 (code bug evidence): on a failed delivery, `send_alert` only returns
False, leaving the notifier exactly as it was — the class stores nothing for
later redelivery, defines no `process_queue` method, and yet the repository's
own test driver invokes `process_queue` on the instance (which can only raise
AttributeError at run time). -/
theorem send_alert_failure_not_queued :
    (send_alert ⟨"123456:ABCdef", "42", "Asia/Kolkata"⟩ SendOutcome.requestError).2 = false ∧
    (send_alert ⟨"123456:ABCdef", "42", "Asia/Kolkata"⟩ SendOutcome.requestError).1
      = ⟨"123456:ABCdef", "42", "Asia/Kolkata"⟩ ∧
    telegramNotifierMethods.contains "process_queue" = false ∧
    testTelegramInvokedMethods.contains "process_queue" = true := by
  refine ⟨rfl, rfl, ?_, ?_⟩ <;> decide

/-- C2 counterexample: a caller-supplied metrics dict carrying the reserved
keys overwrites both the store-computed `error` and `timestamp` of the stored
observation — `add_error` applies `entry.update(additional_metrics)` last, so
the reserved keys are not protected. -/
theorem add_error_reserved_keys_counterexample :
    dget "2025-09-20" (get_model_history
        (add_error [] "arima" (PyFloat.fin 5) "2025-09-20T00:00:00" "2025-09-20"
          [("error", PyVal.num (PyFloat.fin 99)), ("timestamp", PyVal.strv "caller")]
          "2025-08-21" true).1 "arima")
      = some [("error", PyVal.num (PyFloat.fin 99)), ("timestamp", PyVal.strv "caller")] ∧
    PyVal.num (PyFloat.fin 99) ≠ PyVal.num (PyFloat.fin 5) ∧
    PyVal.strv "caller" ≠ PyVal.strv "2025-09-20T00:00:00" := by
  refine ⟨?_, ?_, ?_⟩
  · simp +decide [add_error, mkEntry, dupdate, dget, dinsert, prune_old_entries,
      get_model_history]
  · simp only [ne_eq, PyVal.num.injEq, PyFloat.fin.injEq]
    norm_num
  · simp

/-- C2 amended: the stored observation for the written key is the base dict
`{'error': float(error_value), 'timestamp': creation instant}` updated with
the caller metrics in caller order, so a reserved key present in
`extra_metrics` carries the caller's value, and the store-computed value
survives exactly when `extra_metrics` omits that key. -/
theorem add_error_metrics_merge_order (h : History) (model_name : String) (e : PyFloat)
    (ts d : String) (mets : List (String × PyVal)) (cutoff : String) (s : Bool)
    (v : PyVal) (hnd : (mets.map Prod.fst).Nodup) (hc : pyStrLe cutoff d = true) :
    dget d (get_model_history (add_error h model_name e ts d mets cutoff s).1 model_name)
      = some (mkEntry e ts mets) ∧
    (dget "error" mets = some v → dget "error" (mkEntry e ts mets) = some v) ∧
    (dget "error" mets = none → dget "error" (mkEntry e ts mets)
      = some (PyVal.num e)) ∧
    (dget "timestamp" mets = some v → dget "timestamp" (mkEntry e ts mets) = some v) ∧
    (dget "timestamp" mets = none → dget "timestamp" (mkEntry e ts mets)
      = some (PyVal.strv ts)) := by
  refine ⟨add_error_stores_entry h model_name e ts d mets cutoff s hc, ?_, ?_, ?_, ?_⟩
  · intro hv
    exact dget_dupdate_some hnd hv _
  · intro hv
    rw [mkEntry, dget_dupdate_none hv]
    simp [dget]
  · intro hv
    exact dget_dupdate_some hnd hv _
  · intro hv
    rw [mkEntry, dget_dupdate_none hv]
    simp [dget]

/-- Witness for C2's amended theorem: metrics that override `error` but not
`timestamp`. -/
theorem add_error_metrics_merge_order_witness :
    ((([("error", PyVal.num (PyFloat.fin 99))] : List (String × PyVal)).map Prod.fst).Nodup ∧
     pyStrLe "2025-08-21" "2025-09-20" = true) ∧
    (dget "2025-09-20" (get_model_history
        (add_error [] "arima" (PyFloat.fin 5) "t0" "2025-09-20"
          [("error", PyVal.num (PyFloat.fin 99))] "2025-08-21" true).1 "arima")
      = some (mkEntry (PyFloat.fin 5) "t0" [("error", PyVal.num (PyFloat.fin 99))]) ∧
    (dget "error" [("error", PyVal.num (PyFloat.fin 99))] = some (PyVal.num (PyFloat.fin 99)) →
      dget "error" (mkEntry (PyFloat.fin 5) "t0" [("error", PyVal.num (PyFloat.fin 99))])
        = some (PyVal.num (PyFloat.fin 99))) ∧
    (dget "error" [("error", PyVal.num (PyFloat.fin 99))] = none →
      dget "error" (mkEntry (PyFloat.fin 5) "t0" [("error", PyVal.num (PyFloat.fin 99))])
        = some (PyVal.num (PyFloat.fin 5))) ∧
    (dget "timestamp" [("error", PyVal.num (PyFloat.fin 99))] = some (PyVal.num (PyFloat.fin 99)) →
      dget "timestamp" (mkEntry (PyFloat.fin 5) "t0" [("error", PyVal.num (PyFloat.fin 99))])
        = some (PyVal.num (PyFloat.fin 99))) ∧
    (dget "timestamp" [("error", PyVal.num (PyFloat.fin 99))] = none →
      dget "timestamp" (mkEntry (PyFloat.fin 5) "t0" [("error", PyVal.num (PyFloat.fin 99))])
        = some (PyVal.strv "t0"))) :=
  ⟨⟨by decide, by decide⟩,
   add_error_metrics_merge_order [] "arima" (PyFloat.fin 5) "t0" "2025-09-20"
     [("error", PyVal.num (PyFloat.fin 99))] "2025-08-21" true
     (PyVal.num (PyFloat.fin 99)) (by decide) (by decide)⟩

/-- C8: when persisting the snapshot fails, `add_error` returns False (the
source catches the exception, so nothing is raised) while the in-memory
history still holds the freshly written observation. -/
theorem add_error_persist_failure_keeps_mutation (h : History) (model_name : String)
    (e : PyFloat) (ts d : String) (mets : List (String × PyVal)) (cutoff : String)
    (hc : pyStrLe cutoff d = true) :
    (add_error h model_name e ts d mets cutoff false).2 = false ∧
    dget d (get_model_history (add_error h model_name e ts d mets cutoff false).1 model_name)
      = some (mkEntry e ts mets) :=
  ⟨rfl, add_error_stores_entry h model_name e ts d mets cutoff false hc⟩

/-- Witness for C8 on a concrete failing-save call. -/
theorem add_error_persist_failure_keeps_mutation_witness :
    pyStrLe "2025-08-21" "2025-09-20" = true ∧
    ((add_error [] "arima" (PyFloat.fin 5) "t0" "2025-09-20" [] "2025-08-21" false).2 = false ∧
     dget "2025-09-20" (get_model_history
        (add_error [] "arima" (PyFloat.fin 5) "t0" "2025-09-20" [] "2025-08-21" false).1 "arima")
      = some (mkEntry (PyFloat.fin 5) "t0" [])) :=
  ⟨by decide,
   add_error_persist_failure_keeps_mutation [] "arima" (PyFloat.fin 5) "t0" "2025-09-20"
     [] "2025-08-21" (by decide)⟩

/-- C9: every entry visible through `get_model_history` right after an
`add_error` call — for any model — carries a date at or after the pruning
cutoff, i.e. no date older than `max_days` days before the call instant. -/
theorem add_error_prunes_window (h : History) (model_name : String) (e : PyFloat)
    (ts d : String) (mets : List (String × PyVal)) (cutoff : String) (s : Bool)
    (m' date : String) (entry : Entry)
    (hmem : (date, entry) ∈ get_model_history (add_error h model_name e ts d mets cutoff s).1 m') :
    pyStrLe cutoff date = true := by
  simp only [add_error] at hmem
  exact mem_get_model_history_prune hmem

/-- Witness for C9: the entry just written is inside the window. -/
theorem add_error_prunes_window_witness :
    ((("2025-09-20" : String), mkEntry (PyFloat.fin 5) "t0" [])
        ∈ get_model_history (add_error [] "arima" (PyFloat.fin 5) "t0" "2025-09-20" []
            "2025-08-21" true).1 "arima") ∧
    pyStrLe "2025-08-21" "2025-09-20" = true :=
  ⟨by simp +decide [add_error, mkEntry, dupdate, dget, dinsert, prune_old_entries,
      get_model_history],
   add_error_prunes_window [] "arima" (PyFloat.fin 5) "t0" "2025-09-20" [] "2025-08-21" true
     "arima" "2025-09-20" (mkEntry (PyFloat.fin 5) "t0" [])
     (by simp +decide [add_error, mkEntry, dupdate, dget, dinsert, prune_old_entries,
       get_model_history])⟩

/-- C5: after any sequence of `add_error` calls the history is still a
well-formed dict of dicts, every (model, date) key holds at most one
observation, and writing the same key twice in a row leaves exactly the
second entry under it (last write wins, nothing accumulates). -/
theorem add_error_last_write_wins (h : History) (calls : List AddCall) (hw : HistWF h) :
    HistWF (apply_add_calls h calls) ∧
    (∀ m d, obs_count (apply_add_calls h calls) m d ≤ 1) ∧
    (∀ (m d : String) (e₁ e₂ : PyFloat) (ts₁ ts₂ : String)
        (mets₁ mets₂ : List (String × PyVal)) (c₁ c₂ : String) (s₁ s₂ : Bool),
      pyStrLe c₂ d = true →
      dget d (get_model_history
        (add_error (add_error (apply_add_calls h calls) m e₁ ts₁ d mets₁ c₁ s₁).1
          m e₂ ts₂ d mets₂ c₂ s₂).1 m) = some (mkEntry e₂ ts₂ mets₂)) := by
  refine ⟨apply_add_calls_wf calls h hw,
    fun m d => obs_count_le_one _ (apply_add_calls_wf calls h hw) m d, ?_⟩
  intro m d e₁ e₂ ts₁ ts₂ mets₁ mets₂ c₁ c₂ s₁ s₂ hc
  exact add_error_stores_entry _ m e₂ ts₂ d mets₂ c₂ s₂ hc

/-- Witness for C5: two writes to ("arima", "2025-09-20") leave the second
entry. -/
theorem add_error_last_write_wins_witness :
    HistWF ([] : History) ∧ pyStrLe "2025-09-01" "2025-09-20" = true ∧
    dget "2025-09-20" (get_model_history
      (add_error (add_error (apply_add_calls [] []) "arima" (PyFloat.fin 3) "t1"
          "2025-09-20" [] "2025-08-30" true).1
        "arima" (PyFloat.fin 9) "t2" "2025-09-20" [] "2025-09-01" true).1 "arima")
      = some (mkEntry (PyFloat.fin 9) "t2" []) :=
  ⟨hist_wf_nil, by decide,
   (add_error_last_write_wins [] [] hist_wf_nil).2.2 "arima" "2025-09-20"
     (PyFloat.fin 3) (PyFloat.fin 9) "t1" "t2" [] [] "2025-08-30" "2025-09-01" true true
     (by decide)⟩

/-- C6: the alert decision of `evaluate_forecast_and_notify` maps an error at
or below 5.0 to no alert, an error in (5.0, 10.0] to the "error" tier, and an
error above 10.0 (including +infinity) to the "critical" tier; in every case
the observation is recorded in the history with its contextual metrics. -/
theorem evaluate_severity_tiers (h : History) (actual_value predicted_value : ℚ)
    (model_name ts forecast_date cutoff : String) (save_ok : Bool)
    (hc : pyStrLe cutoff forecast_date = true) :
    (PyFloat.lt (PyFloat.fin 5) (evaluate_forecast_and_notify h actual_value predicted_value
        model_name ts forecast_date cutoff save_ok).error_pct = false →
      (evaluate_forecast_and_notify h actual_value predicted_value
        model_name ts forecast_date cutoff save_ok).alert = none) ∧
    (PyFloat.lt (PyFloat.fin 5) (evaluate_forecast_and_notify h actual_value predicted_value
        model_name ts forecast_date cutoff save_ok).error_pct = true →
      PyFloat.lt (PyFloat.fin 10) (evaluate_forecast_and_notify h actual_value predicted_value
        model_name ts forecast_date cutoff save_ok).error_pct = false →
      (evaluate_forecast_and_notify h actual_value predicted_value
        model_name ts forecast_date cutoff save_ok).alert = some "error") ∧
    (PyFloat.lt (PyFloat.fin 10) (evaluate_forecast_and_notify h actual_value predicted_value
        model_name ts forecast_date cutoff save_ok).error_pct = true →
      (evaluate_forecast_and_notify h actual_value predicted_value
        model_name ts forecast_date cutoff save_ok).alert = some "critical") ∧
    dget forecast_date (get_model_history (evaluate_forecast_and_notify h actual_value
        predicted_value model_name ts forecast_date cutoff save_ok).history model_name)
      = some (mkEntry (evaluate_forecast_and_notify h actual_value predicted_value
            model_name ts forecast_date cutoff save_ok).error_pct ts
          [("actual", PyVal.num (PyFloat.fin actual_value)),
           ("predicted", PyVal.num (PyFloat.fin predicted_value)),
           ("abs_error", PyVal.num (PyFloat.fin |actual_value - predicted_value|))]) := by
  refine ⟨?_, ?_, ?_, ?_⟩
  · intro h5
    simp only [evaluate_forecast_and_notify] at h5 ⊢
    simp [alertLevel, h5]
  · intro h5 h10
    simp only [evaluate_forecast_and_notify] at h5 h10 ⊢
    simp [alertLevel, h5, h10]
  · intro h10
    simp only [evaluate_forecast_and_notify] at h10 ⊢
    simp [alertLevel, h10, pyfloat_lt_five_of_lt_ten h10]
  · simp only [evaluate_forecast_and_notify]
    exact add_error_stores_entry h model_name _ ts forecast_date _ cutoff save_ok hc

/-- Witness for C6 at `actual = 100, predicted = 89` (an 11% error). -/
theorem evaluate_severity_tiers_witness :
    pyStrLe "2025-09-01" "2025-09-20" = true ∧
    ((PyFloat.lt (PyFloat.fin 5) (evaluate_forecast_and_notify [] 100 89
        "arima" "t0" "2025-09-20" "2025-09-01" true).error_pct = false →
      (evaluate_forecast_and_notify [] 100 89
        "arima" "t0" "2025-09-20" "2025-09-01" true).alert = none) ∧
    (PyFloat.lt (PyFloat.fin 5) (evaluate_forecast_and_notify [] 100 89
        "arima" "t0" "2025-09-20" "2025-09-01" true).error_pct = true →
      PyFloat.lt (PyFloat.fin 10) (evaluate_forecast_and_notify [] 100 89
        "arima" "t0" "2025-09-20" "2025-09-01" true).error_pct = false →
      (evaluate_forecast_and_notify [] 100 89
        "arima" "t0" "2025-09-20" "2025-09-01" true).alert = some "error") ∧
    (PyFloat.lt (PyFloat.fin 10) (evaluate_forecast_and_notify [] 100 89
        "arima" "t0" "2025-09-20" "2025-09-01" true).error_pct = true →
      (evaluate_forecast_and_notify [] 100 89
        "arima" "t0" "2025-09-20" "2025-09-01" true).alert = some "critical") ∧
    dget "2025-09-20" (get_model_history (evaluate_forecast_and_notify [] 100 89
        "arima" "t0" "2025-09-20" "2025-09-01" true).history "arima")
      = some (mkEntry (evaluate_forecast_and_notify [] 100 89
            "arima" "t0" "2025-09-20" "2025-09-01" true).error_pct "t0"
          [("actual", PyVal.num (PyFloat.fin 100)),
           ("predicted", PyVal.num (PyFloat.fin 89)),
           ("abs_error", PyVal.num (PyFloat.fin |(100 : ℚ) - 89|))])) :=
  ⟨by decide,
   evaluate_severity_tiers [] 100 89 "arima" "t0" "2025-09-20" "2025-09-01" true (by decide)⟩

/-- Concrete history carrying errors 3.0, 7.0, 12.0 for one model inside the
query window, built through the real `add_error` pipeline. -/
def exampleRecentHistory : History :=
  apply_add_calls []
    [⟨"model_a", PyFloat.fin 3, "t1", "2025-09-10", [], "2025-08-13", true⟩,
     ⟨"model_a", PyFloat.fin 7, "t2", "2025-09-11", [], "2025-08-14", true⟩,
     ⟨"model_a", PyFloat.fin 12, "t3", "2025-09-12", [], "2025-08-15", true⟩]

/-- C7: `get_error_statistics` is computed strictly from the error values of
`get_recent_errors` with threshold 5.0 — zero count and all-None aggregates
when nothing is recent, otherwise count, min, max, arithmetic mean and the
number of errors strictly above 5.0; on errors [3.0, 7.0, 12.0] this yields
count 3, min 3.0, max 12.0, mean 22/3 = 7.333..., and 2 above threshold. -/
theorem get_error_statistics_strict (h : History) (model_name cutoff : String) :
    ((get_recent_errors h model_name cutoff).map (fun p => pyValNum p.2) = [] →
      get_error_statistics h model_name cutoff
        = { count := 0, min := none, max := none, avg := none,
            above_threshold_count := 0 }) ∧
    (∀ (r : PyFloat) (rs : List PyFloat),
      (get_recent_errors h model_name cutoff).map (fun p => pyValNum p.2) = r :: rs →
      get_error_statistics h model_name cutoff
        = { count := (r :: rs).length, min := pyListMin (r :: rs),
            max := pyListMax (r :: rs),
            avg := some ((pySum (r :: rs)).divNat (r :: rs).length),
            above_threshold_count :=
              ((r :: rs).filter (fun e => PyFloat.lt (PyFloat.fin 5) e)).length }) ∧
    get_error_statistics exampleRecentHistory "model_a" "2025-09-01"
      = { count := 3, min := some (PyFloat.fin 3), max := some (PyFloat.fin 12),
          avg := some (PyFloat.fin (22/3)), above_threshold_count := 2 } := by
  refine ⟨?_, ?_, ?_⟩
  · intro hre
    simp [get_error_statistics, hre]
  · intro r rs hre
    simp [get_error_statistics, hre]
  · simp +decide [exampleRecentHistory, apply_add_calls, add_error, mkEntry, dupdate, dget,
      dinsert, prune_old_entries, get_error_statistics, get_recent_errors, get_model_history,
      entryErrorVal, pyValNum, sortByDate, insertByDate, pyListMin, pyListMax, pySum,
      PyFloat.min2, PyFloat.max2, PyFloat.add, PyFloat.divNat, PyFloat.lt]
    norm_num

/-- Witness for C7: the example history has the non-empty recent list
[3.0, 7.0, 12.0]. -/
theorem get_error_statistics_strict_witness :
    (get_recent_errors exampleRecentHistory "model_a" "2025-09-01").map (fun p => pyValNum p.2)
      = PyFloat.fin 3 :: [PyFloat.fin 7, PyFloat.fin 12] ∧
    get_error_statistics exampleRecentHistory "model_a" "2025-09-01"
      = { count := (PyFloat.fin 3 :: [PyFloat.fin 7, PyFloat.fin 12]).length,
          min := pyListMin (PyFloat.fin 3 :: [PyFloat.fin 7, PyFloat.fin 12]),
          max := pyListMax (PyFloat.fin 3 :: [PyFloat.fin 7, PyFloat.fin 12]),
          avg := some ((pySum (PyFloat.fin 3 :: [PyFloat.fin 7, PyFloat.fin 12])).divNat
            (PyFloat.fin 3 :: [PyFloat.fin 7, PyFloat.fin 12]).length),
          above_threshold_count := ((PyFloat.fin 3 :: [PyFloat.fin 7, PyFloat.fin 12]).filter
            (fun e => PyFloat.lt (PyFloat.fin 5) e)).length } :=
  ⟨by simp +decide [exampleRecentHistory, apply_add_calls, add_error, mkEntry, dupdate, dget,
      dinsert, prune_old_entries, get_recent_errors, get_model_history,
      entryErrorVal, pyValNum, sortByDate, insertByDate],
   (get_error_statistics_strict exampleRecentHistory "model_a" "2025-09-01").2.1
     (PyFloat.fin 3) [PyFloat.fin 7, PyFloat.fin 12]
     (by simp +decide [exampleRecentHistory, apply_add_calls, add_error, mkEntry, dupdate, dget,
       dinsert, prune_old_entries, get_recent_errors, get_model_history,
       entryErrorVal, pyValNum, sortByDate, insertByDate])⟩
